import Mathlib

/-!
Shallow embedding of the quiz engine from `src/QuizGame.py`, `src/Questions.py`
(class hierarchy `Question` / `EasyQuestion` / `MediumQuestion` / `HardQuestion`).

Python strings become Lean `String`; Python `Optional[T]` becomes `Option T`;
a method that can raise becomes a function into `Except (E × GameState) _`,
where the error carries the state of the object at the moment of the raise
(every raise in the modelled methods happens before any field assignment, so
the carried state is the receiver unchanged).  Python `random.shuffle` is a
nondeterministic operation; it is modelled by passing the shuffling function
as an explicit parameter (any function `List Question → List Question`; the
facts proved below that depend on it assume only that it permutes its input).
-/

/-! ### Python string primitives

All of these recurse structurally over the character list of the string, so
that concrete runs of the embedded program reduce inside the kernel. -/

/-- Python whitespace, as removed by `str.strip()`. -/
def pyIsSpace (c : Char) : Bool :=
  c = ' ' || c = '\t' || c = '\n' || c = '\r' || c = '\x0b' || c = '\x0c'

/-- Python `s.strip()`. -/
def pyStrip (s : String) : String :=
  String.mk (((s.data.dropWhile pyIsSpace).reverse.dropWhile pyIsSpace).reverse)

/-- Python `s.upper()` (ASCII; the tags and letters involved are ASCII). -/
def pyUpper (s : String) : String :=
  String.mk (s.data.map Char.toUpper)

/-- Python `s.lower()` (ASCII). -/
def pyLower (s : String) : String :=
  String.mk (s.data.map Char.toLower)

/-- Split a character list at the first occurrence of `sep`. -/
def charsSplitFirst (sep : Char) : List Char → Option (List Char × List Char)
  | [] => none
  | c :: rest =>
    if c = sep then some ([], rest)
    else
      match charsSplitFirst sep rest with
      | none => none
      | some (a, b) => some (c :: a, b)

/-- Python `s.split(sep, 1)` for a one-character separator: at most one
split, at the first occurrence; a one-element list when `sep` does not occur
in `s`. -/
def pySplit1 (sep : Char) (s : String) : List String :=
  match charsSplitFirst sep s.data with
  | none => [s]
  | some (a, b) => [String.mk a, String.mk b]

/-- Python `c in s` for a one-character `c`. -/
def pyContains (s : String) (c : Char) : Bool :=
  s.data.contains c

/-- Whether `pre` is an initial run of `cs` (Python `startswith` on lists). -/
def charsStartWith : List Char → List Char → Bool
  | _, [] => true
  | [], _ :: _ => false
  | c :: cs, p :: ps => c = p && charsStartWith cs ps

/-- Python `s.startswith(pre)`. -/
def pyStartsWith (s pre : String) : Bool :=
  charsStartWith s.data pre.data

/-- Python `s.isdigit()` (ASCII digits suffice for the bank format). -/
def pyIsDigit (s : String) : Bool :=
  s ≠ "" && s.toList.all Char.isDigit

/-- Python `s.isalpha()` (ASCII letters suffice for the inputs involved). -/
def pyIsAlpha (s : String) : Bool :=
  s ≠ "" && s.toList.all Char.isAlpha

/-- Python `ord(s)`: defined only on length-1 strings (otherwise `TypeError`). -/
def pyOrd (s : String) : Option Int :=
  match s.toList with
  | [c] => some (Int.ofNat c.toNat)
  | _ => none

/-- Python list indexing `l[k]` with an `Int` index: negative indices count
from the end; out-of-range (after wrapping) is `none` (`IndexError`). -/
def pyIndex {α : Type} (l : List α) (k : Int) : Option α :=
  let j : Int := if k < 0 then k + (l.length : Int) else k
  if j < 0 then none else l[j.toNat]?

/-! ### Data model (`Questions.py`) -/

/-- The concrete class of a question object: the three subclasses carry a
`get_points` method (1 / 3 / 5); `base` is the bare `Question` class, which
has none. -/
inductive Tier
  | easy
  | medium
  | hard
  | base
deriving DecidableEq, Repr

/-- Points as observed by callers: the subclasses return their fixed value;
for the bare class, both call sites (`check_answer`, `save_game`) substitute
the default 1 (`hasattr` test resp. `getattr` default). -/
def Tier.points : Tier → Int
  | .easy => 1
  | .medium => 3
  | .hard => 5
  | .base => 1

/-- A question object: `_question_text`, `_answers`, `_correct_answer`
fields of `Question`, plus which class it was constructed as. -/
structure Question where
  question_text : String
  answers : List String
  correct_answer : String
  tier : Tier
deriving DecidableEq, Repr

def Question.points (q : Question) : Int := q.tier.points

/-- `DIFF_TO_CLASS` from `QuizGame.py`: difficulty tag to question class. -/
def DIFF_TO_CLASS (d : String) : Tier :=
  if d = "Easy" then .easy
  else if d = "Medium" then .medium
  else if d = "Hard" then .hard
  else .base

def GRADE_LEVELS : List String := ["ELEMENTARY", "HIGH SCHOOL"]

def DIFFICULTIES : List String := ["Easy", "Medium", "Hard"]

/-! ### The bank index `_all_questions` -/

/-- `self._all_questions`: grade → difficulty → list of questions, with
exactly the keys `GRADE_LEVELS × DIFFICULTIES`. -/
structure Bank where
  elemEasy : List Question
  elemMedium : List Question
  elemHard : List Question
  hsEasy : List Question
  hsMedium : List Question
  hsHard : List Question
deriving DecidableEq, Repr

def Bank.empty : Bank := ⟨[], [], [], [], [], []⟩

/-- `self._all_questions[grade][diff]` for the keys that exist. -/
def Bank.get (b : Bank) (grade diff : String) : List Question :=
  if grade = "ELEMENTARY" then
    if diff = "Easy" then b.elemEasy
    else if diff = "Medium" then b.elemMedium
    else if diff = "Hard" then b.elemHard
    else []
  else if grade = "HIGH SCHOOL" then
    if diff = "Easy" then b.hsEasy
    else if diff = "Medium" then b.hsMedium
    else if diff = "Hard" then b.hsHard
    else []
  else []

/-- `self._all_questions[grade][diff].append(q)`. -/
def Bank.add (b : Bank) (grade diff : String) (q : Question) : Bank :=
  if grade = "ELEMENTARY" then
    if diff = "Easy" then { b with elemEasy := b.elemEasy ++ [q] }
    else if diff = "Medium" then { b with elemMedium := b.elemMedium ++ [q] }
    else if diff = "Hard" then { b with elemHard := b.elemHard ++ [q] }
    else b
  else if grade = "HIGH SCHOOL" then
    if diff = "Easy" then { b with hsEasy := b.hsEasy ++ [q] }
    else if diff = "Medium" then { b with hsMedium := b.hsMedium ++ [q] }
    else if diff = "Hard" then { b with hsHard := b.hsHard ++ [q] }
    else b
  else b

/-! ### Bank parsing (`_load_questions_from_file` and helpers) -/

/-- `QuizGame._looks_like_qnum`. -/
def looks_like_qnum (line : String) : Bool :=
  line.length > 2 && pyIsDigit (pyStrip ((pySplit1 '.' line).headD ""))

/-- One iteration of the choice-reading loop in `_parse_question_block`. -/
def parse_choice (raw : String) : String :=
  let choice_line := pyStrip raw
  if pyContains choice_line ')' then pyStrip ((pySplit1 ')' choice_line).getD 1 "")
  else choice_line

/-- The answer-line handling in `_parse_question_block`: text after the first
colon if any, else the whole line; then the first character, upper-cased
(`none` models the `IndexError` on an empty remainder). -/
def parse_answer_letter (raw : String) : Option String :=
  let ans_line := pyStrip raw
  let correct :=
    if pyContains ans_line ':' then pyStrip ((pySplit1 ':' ans_line).getD 1 "")
    else pyStrip ans_line
  match correct.data with
  | [] => none
  | c :: _ => some (String.singleton c.toUpper)

/-- `QuizGame._parse_question_block`: question line, 4 choice lines, answer
line; returns `(question_text, answers, correct_letter, next_index)`.
`none` models the uncaught `IndexError` on a truncated block (or a question
line with no period, or an empty answer remainder). -/
def parse_question_block (lines : List String) (start_idx : Nat) :
    Option (String × List String × String × Nat) := do
  let q_line ← lines[start_idx]?
  let q_text_raw ← (pySplit1 '.' q_line)[1]?
  let a1 ← lines[start_idx + 1]?
  let a2 ← lines[start_idx + 2]?
  let a3 ← lines[start_idx + 3]?
  let a4 ← lines[start_idx + 4]?
  let ans_line ← lines[start_idx + 5]?
  let correct ← parse_answer_letter ans_line
  some (pyStrip q_text_raw,
        [parse_choice a1, parse_choice a2, parse_choice a3, parse_choice a4],
        correct, start_idx + 6)

/-- The `while i < len(lines)` scan of `_load_questions_from_file`, as a
fuel-indexed loop.  The scan index strictly increases each iteration (by 1,
or past a consumed block), so fuel `lines.length + 1` always suffices; fuel
exhaustion (`none` from the first equation) is unreachable from
`load_questions_from_lines` below. -/
def load_questions_loop :
    Nat → List String → Nat → Option String → Option String → Bank → Option Bank
  | 0, _, _, _, _, _ => none
  | fuel + 1, lines, i, grade, difficulty, bank =>
    match lines[i]? with
    | none => some bank
    | some raw =>
      let line := pyStrip raw
      if line = "" then load_questions_loop fuel lines (i + 1) grade difficulty bank
      else if pyStartsWith (pyUpper line) "ELEMENTARY LEVEL" then
        load_questions_loop fuel lines (i + 1) (some "ELEMENTARY") none bank
      else if pyStartsWith (pyUpper line) "HIGH SCHOOL LEVEL" then
        load_questions_loop fuel lines (i + 1) (some "HIGH SCHOOL") none bank
      else if pyStartsWith line "Easy" && grade.isSome then
        load_questions_loop fuel lines (i + 1) grade (some "Easy") bank
      else if pyStartsWith line "Medium" && grade.isSome then
        load_questions_loop fuel lines (i + 1) grade (some "Medium") bank
      else if pyStartsWith line "Hard" && grade.isSome then
        load_questions_loop fuel lines (i + 1) grade (some "Hard") bank
      else
        match grade, difficulty with
        | some g, some d =>
          if looks_like_qnum line then
            match parse_question_block lines i with
            | none => none
            | some (q_text, answers, correct, consumed) =>
              let q : Question := ⟨q_text, answers, correct, DIFF_TO_CLASS d⟩
              load_questions_loop fuel lines consumed grade difficulty (bank.add g d q)
          else load_questions_loop fuel lines (i + 1) grade difficulty bank
        | _, _ => load_questions_loop fuel lines (i + 1) grade difficulty bank

/-- `QuizGame._load_questions_from_file`, minus the file read: takes the
already-split lines of the bank file. -/
def load_questions_from_lines (lines : List String) : Option Bank :=
  load_questions_loop (lines.length + 1) lines 0 none none Bank.empty

/-! ### Session state (`QuizGame` mutable fields) -/

/-- `self._session_meta`. -/
structure Meta where
  grade_level : String
  difficulty : String
deriving DecidableEq, Repr

/-- The mutable session fields of a `QuizGame` object: `question_bank`,
`score`, `_current_index`, `_session_meta`. -/
structure GameState where
  question_bank : List Question
  score : Int
  current_index : Nat
  session_meta : Meta
deriving DecidableEq, Repr

/-- The two `ValueError` raises of `configure_session`, distinguished by
their messages. -/
inductive ConfigError
  | invalidSelection
  | emptyPool
deriving DecidableEq, Repr

/-- `QuizGame.configure_session`.  `shuffle` stands for `random.shuffle`
(modelled as an explicit function, see the header).  An error carries the
receiver state at the raise, which both raises reach before any assignment. -/
def configure_session (shuffle : List Question → List Question) (bank : Bank)
    (g : GameState) (grade_level difficulty : String) (limit : Option Int) :
    Except (ConfigError × GameState) GameState :=
  if pyUpper grade_level ∉ GRADE_LEVELS then .error (.invalidSelection, g)
  else if difficulty ∉ DIFFICULTIES then .error (.invalidSelection, g)
  else
    let pool := bank.get (pyUpper grade_level) difficulty
    if pool = [] then .error (.emptyPool, g)
    else
      let pool := shuffle pool
      let pool :=
        match limit with
        | some l => pool.take (max 0 l).toNat
        | none => pool
      .ok { question_bank := pool, current_index := 0, score := 0,
            session_meta := ⟨pyUpper grade_level, difficulty⟩ }

/-- `QuizGame.display_question`: the question at the cursor, or `None` when
the session is exhausted.  The method only prints besides this; it assigns
no field, so it is a pure function of the state. -/
def display_question (g : GameState) : Option Question :=
  if g.question_bank.length ≤ g.current_index then none
  else g.question_bank[g.current_index]?

/-- The text-matching loop of `check_answer`: first option whose full text
equals the input case-insensitively, as its letter `chr(ord('A') + i)`. -/
def find_text_match : List String → String → Nat → Option String
  | [], _, _ => none
  | choice :: rest, user_clean, i =>
    if pyLower user_clean = pyLower choice then some (String.singleton (Char.ofNat (65 + i)))
    else find_text_match rest user_clean (i + 1)

/-- Lines 196–208 of `check_answer`: resolve the raw input to an option
letter (`None` when the trimmed input is empty or nothing matches). -/
def resolve_user_letter (answers : List String) (user_input : String) : Option String :=
  let user_clean := pyStrip user_input
  if user_clean ≠ "" then
    if user_clean.length = 1 && pyIsAlpha user_clean then some (pyUpper user_clean)
    else find_text_match answers user_clean 0
  else none

/-- The raises reachable from `check_answer`: the guard `IndexError`, the
`IndexError` from `answers[ord(correct_letter) - 65]` in the wrong-answer
message, and the `TypeError` from `ord` on a non-length-1 string. -/
inductive QuizError
  | noCurrentQuestion
  | indexError
  | typeError
deriving DecidableEq, Repr

/-- `QuizGame.check_answer`.  An error carries the receiver state at the
raise; every raise happens before the cursor advance and any score change. -/
def check_answer (g : GameState) (user_input : String) :
    Except (QuizError × GameState) (Bool × GameState) :=
  match g.question_bank[g.current_index]? with
  | none => .error (.noCurrentQuestion, g)
  | some q =>
    let correct_letter := pyUpper q.correct_answer
    let user_letter := resolve_user_letter q.answers user_input
    if user_letter == some correct_letter then
      .ok (true, { g with score := g.score + q.points,
                          current_index := g.current_index + 1 })
    else
      match pyOrd correct_letter with
      | none => .error (.typeError, g)
      | some o =>
        match pyIndex q.answers (o - 65) with
        | none => .error (.indexError, g)
        | some _ => .ok (false, { g with current_index := g.current_index + 1 })

/-- `QuizGame.shuffle_question_bank` (same `shuffle` convention as above). -/
def shuffle_question_bank (shuffle : List Question → List Question)
    (g : GameState) : GameState :=
  { g with question_bank := shuffle g.question_bank, current_index := 0 }

/-- `QuizGame.reset_game`. -/
def reset_game (_g : GameState) : GameState :=
  { question_bank := [], score := 0, current_index := 0, session_meta := ⟨"", ""⟩ }

/-- `QuizGame.get_score`. -/
def get_score (g : GameState) : Int := g.score

/-! ### Persistence codec (`save_game` / `load_game`) -/

/-- One entry of the `"remaining"` array of the save file. -/
structure SaveRecord where
  question_text : String
  answers : List String
  correct : String
  points : Int
deriving DecidableEq, Repr

/-- The save-file payload written by `save_game` and read by `load_game`. -/
structure SaveData where
  meta : Meta
  score : Int
  current_index : Nat
  remaining : List SaveRecord
deriving DecidableEq, Repr

/-- `QuizGame.save_game`, minus the file write: the serialized payload.
Only `question_bank[_current_index:]` is flattened; a question with no
`get_points` method saves the `getattr` default 1 (see `Tier.points`). -/
def save_game (g : GameState) : SaveData :=
  { meta := g.session_meta
  , score := g.score
  , current_index := g.current_index
  , remaining := (g.question_bank.drop g.current_index).map fun q =>
      ⟨q.question_text, q.answers, q.correct_answer, q.points⟩ }

/-- The reverse lookup `{1: EasyQuestion, 3: MediumQuestion, 5: HardQuestion}
.get(points, Question)` in `load_game`. -/
def points_to_tier (p : Int) : Tier :=
  if p = 1 then .easy
  else if p = 3 then .medium
  else if p = 5 then .hard
  else .base

/-- `QuizGame.load_game`, minus the file read: rebuilds the session from a
payload.  The stored `current_index` is ignored; the cursor restarts at 0. -/
def load_game (data : SaveData) : GameState :=
  { session_meta := data.meta
  , score := data.score
  , current_index := 0
  , question_bank := data.remaining.map fun item =>
      ⟨item.question_text, item.answers, item.correct, points_to_tier item.points⟩ }

/-- A sequence of `check_answer` calls, threading the state and stopping at
the first raise (as the driving loop would). -/
def run_answers (g : GameState) (inputs : List String) :
    Except (QuizError × GameState) GameState :=
  List.foldlM (fun s inp => (check_answer s inp).map Prod.snd) g inputs

/-! ### Shared helper lemmas -/

theorem exists_four {α : Type} (l : List α) (h : l.length = 4) :
    ∃ a b c d, l = [a, b, c, d] := by
  rcases l with _ | ⟨a, l⟩
  · simp at h
  rcases l with _ | ⟨b, l⟩
  · simp at h
  rcases l with _ | ⟨c, l⟩
  · simp at h
  rcases l with _ | ⟨d, l⟩
  · simp at h
  rcases l with _ | ⟨e, l⟩
  · exact ⟨a, b, c, d, rfl⟩
  · simp at h

/-- On a current question whose record satisfies the data-model invariant
(4 options, correct letter among A–D), `check_answer` reduces to: correct
branch when the resolved letter equals the correct one, wrong branch
otherwise — and neither branch raises. -/
theorem check_answer_eq_of_valid (g : GameState) (q : Question) (input : String)
    (hq : g.question_bank[g.current_index]? = some q)
    (h4 : q.answers.length = 4)
    (hc : q.correct_answer ∈ (["A", "B", "C", "D"] : List String)) :
    check_answer g input =
      if resolve_user_letter q.answers input = some q.correct_answer then
        .ok (true, { g with score := g.score + q.points,
                            current_index := g.current_index + 1 })
      else
        .ok (false, { g with current_index := g.current_index + 1 }) := by
  simp only [List.mem_cons, List.mem_singleton, List.not_mem_nil, or_false] at hc
  have hup : pyUpper q.correct_answer = q.correct_answer := by
    rcases hc with h | h | h | h <;> rw [h] <;> decide
  obtain ⟨a, b, c, d, habcd⟩ := exists_four q.answers h4
  simp only [check_answer, hq, hup]
  by_cases hres : resolve_user_letter q.answers input = some q.correct_answer
  · simp [hres]
  · have hbeq : (resolve_user_letter q.answers input == some q.correct_answer) = false := by
      simp [hres]
    simp only [hbeq, Bool.false_eq_true, if_neg, if_false, hres]
    rcases hc with h | h | h | h <;> rw [h]
    · have h1 : pyOrd "A" = some 65 := by decide
      rw [h1, habcd]
      norm_num [pyIndex]
    · have h1 : pyOrd "B" = some 66 := by decide
      rw [h1, habcd]
      norm_num [pyIndex]
    · have h1 : pyOrd "C" = some 67 := by decide
      rw [h1, habcd]
      norm_num [pyIndex]
    · have h1 : pyOrd "D" = some 68 := by decide
      rw [h1, habcd]
      norm_num [pyIndex]

/-- A successful `check_answer` keeps the pool and the meta and advances the
cursor by exactly one. -/
theorem check_answer_ok_frame {g g' : GameState} {inp : String} {b : Bool}
    (h : check_answer g inp = .ok (b, g')) :
    g'.question_bank = g.question_bank ∧
    g'.current_index = g.current_index + 1 ∧
    g'.session_meta = g.session_meta := by
  unfold check_answer at h
  split at h
  · simp at h
  · simp only [] at h
    split at h
    · simp only [Except.ok.injEq, Prod.mk.injEq] at h
      rw [← h.2]
      exact ⟨rfl, rfl, rfl⟩
    · split at h
      · simp at h
      · split at h
        · simp at h
        · simp only [Except.ok.injEq, Prod.mk.injEq] at h
          rw [← h.2]
          exact ⟨rfl, rfl, rfl⟩

/-- A raise-free run of `check_answer` calls keeps the pool and moves the
cursor forward by the number of calls. -/
theorem run_answers_ok {inputs : List String} {g g' : GameState}
    (h : run_answers g inputs = .ok g') :
    g'.question_bank = g.question_bank ∧
    g'.current_index = g.current_index + inputs.length := by
  induction inputs generalizing g with
  | nil =>
    simp only [run_answers, List.foldlM] at h
    simp only [pure, Except.pure, Except.ok.injEq] at h
    subst h
    simp
  | cons a l ih =>
    rw [run_answers, List.foldlM_cons] at h
    cases hc : check_answer g a with
    | error e =>
      rw [hc] at h
      simp [Except.map, Bind.bind, Except.bind] at h
    | ok p =>
      obtain ⟨b, g1⟩ := p
      rw [hc] at h
      simp only [Except.map, Bind.bind, Except.bind] at h
      have h' : run_answers g1 l = .ok g' := h
      obtain ⟨hb, hi⟩ := ih h'
      obtain ⟨fb, fi, _⟩ := check_answer_ok_frame hc
      refine ⟨by rw [hb, fb], ?_⟩
      rw [hi, fi]
      simp [List.length_cons]
      omega

/-! ### Concrete states used by counterexamples and witnesses -/

/-- The field values set by `QuizGame.__init__` (before any configuration). -/
def fresh_state : GameState := ⟨[], 0, 0, ⟨"", ""⟩⟩

def witness_q : Question := ⟨"2+2?", ["3", "4", "5", "6"], "B", Tier.easy⟩

def witness_g : GameState := ⟨[witness_q], 0, 0, ⟨"ELEMENTARY", "Easy"⟩⟩

/-! ### The claims -/

/-- C1: for every session state, `load_game (save_game g)` reproduces `score`
and `meta` exactly, the restored pool matches `pool[cursor:]` of the saved
state field-for-field (text, options, correct letter, points), and the
restored cursor is 0. -/
theorem c1_save_load_roundtrip (g : GameState) :
    (load_game (save_game g)).score = g.score ∧
    (load_game (save_game g)).session_meta = g.session_meta ∧
    (load_game (save_game g)).current_index = 0 ∧
    (load_game (save_game g)).question_bank.map
        (fun q => (q.question_text, q.answers, q.correct_answer, q.points)) =
      (g.question_bank.drop g.current_index).map
        (fun q => (q.question_text, q.answers, q.correct_answer, q.points)) := by
  refine ⟨rfl, rfl, rfl, ?_⟩
  simp only [load_game, save_game, List.map_map, Function.comp]
  refine List.map_congr_left fun q _ => ?_
  obtain ⟨t, a, c, tr⟩ := q
  cases tr <;> rfl

/-- A save with one remaining record whose stored points value is 7 (not one
of 1, 3, 5). -/
def c2_save : SaveData :=
  ⟨⟨"ELEMENTARY", "Easy"⟩, 0, 0, [⟨"q7", ["w", "x", "y", "z"], "A", 7⟩]⟩

/-- C2 counterexample: the record stored with points 7 is restored with
effective point value 1, not 7, and a subsequent correct `check_answer`
raises the score by exactly 1 — refuting the claim that the restored record
retains point value p and that a correct answer adds p. -/
theorem c2_counterexample :
    c2_save.remaining.map SaveRecord.points = [7] ∧
    (load_game c2_save).question_bank.map Question.points = [1] ∧
    (check_answer (load_game c2_save) "a").map (fun r => (r.1, r.2.score)) =
      .ok (true, 1) :=
  ⟨by decide, by decide, rfl⟩

/-- C2 amended: a save record whose stored points value is an integer other
than 1, 3 or 5 is restored as a bare (untiered) `Question`, whose effective
point value is the default 1 — the stored value is not retained — and a
subsequent correct `check_answer` on that restored question increases the
score by exactly 1. -/
theorem c2_amended (data : SaveData) (r : SaveRecord) (rest : List SaveRecord)
    (input : String) (g' : GameState)
    (hrem : data.remaining = r :: rest)
    (h1 : r.points ≠ 1) (h3 : r.points ≠ 3) (h5 : r.points ≠ 5)
    (hok : check_answer (load_game data) input = .ok (true, g')) :
    points_to_tier r.points = Tier.base ∧
    (load_game data).question_bank[0]? =
      some ⟨r.question_text, r.answers, r.correct, Tier.base⟩ ∧
    g'.score = data.score + 1 := by
  have htier : points_to_tier r.points = Tier.base := by
    simp [points_to_tier, h1, h3, h5]
  have hbank : (load_game data).question_bank[0]? =
      some ⟨r.question_text, r.answers, r.correct, Tier.base⟩ := by
    simp [load_game, hrem, htier]
  refine ⟨htier, hbank, ?_⟩
  have hidx : (load_game data).current_index = 0 := rfl
  unfold check_answer at hok
  rw [hidx, hbank] at hok
  simp only [] at hok
  split at hok
  · simp only [Except.ok.injEq, Prod.mk.injEq] at hok
    rw [← hok.2]
    simp [Question.points, Tier.points, load_game]
  · split at hok
    · simp at hok
    · split at hok
      · simp at hok
      · simp at hok

/-- C2 amended, witness: the concrete save `c2_save` (stored points 7) is
restored as a base-tier record with effective points 1, and answering it
correctly yields score 0 + 1. -/
theorem c2_amended_witness :
    points_to_tier (7 : Int) = Tier.base ∧
    (load_game c2_save).question_bank[0]? =
      some ⟨"q7", ["w", "x", "y", "z"], "A", Tier.base⟩ ∧
    (⟨[⟨"q7", ["w", "x", "y", "z"], "A", Tier.base⟩], 1, 1,
        ⟨"ELEMENTARY", "Easy"⟩⟩ : GameState).score = c2_save.score + 1 :=
  c2_amended c2_save ⟨"q7", ["w", "x", "y", "z"], "A", (7 : Int)⟩ [] "a"
    ⟨[⟨"q7", ["w", "x", "y", "z"], "A", Tier.base⟩], 1, 1, ⟨"ELEMENTARY", "Easy"⟩⟩
    rfl (by decide) (by decide) (by decide) rfl

/-- C3: the bank lines "ELEMENTARY LEVEL" / "Easy" / "1. 2+2?" / "a) 3" /
"b) 4" / "c) 5" / "d) 6" / "Answer: B" parse to exactly one record under
ELEMENTARY/Easy with text "2+2?", options ["3","4","5","6"], correct option
"B", and points 1. -/
theorem c3_parse_single_easy_question :
    load_questions_from_lines
        ["ELEMENTARY LEVEL", "Easy", "1. 2+2?", "a) 3", "b) 4", "c) 5", "d) 6",
         "Answer: B"] =
      some { elemEasy := [⟨"2+2?", ["3", "4", "5", "6"], "B", Tier.easy⟩],
             elemMedium := [], elemHard := [], hsEasy := [], hsMedium := [],
             hsHard := [] } ∧
    Question.points ⟨"2+2?", ["3", "4", "5", "6"], "B", Tier.easy⟩ = 1 :=
  ⟨by decide, rfl⟩

/-- A bank with one ELEMENTARY/Easy question, used against C4. -/
def c4_bank : Bank :=
  { Bank.empty with elemEasy := [⟨"q0", ["1", "2", "3", "4"], "A", Tier.easy⟩] }

/-- C4 counterexample: the grade "elementary" is not one of the two fixed
grade tags, yet `configure_session` succeeds with it — the code compares the
upper-cased grade, so the claim "fails whenever the given grade is not one of
the two fixed grade tags" is false as stated. -/
theorem c4_counterexample :
    "elementary" ∉ GRADE_LEVELS ∧
    configure_session id c4_bank fresh_state "elementary" "Easy" none =
      .ok ⟨[⟨"q0", ["1", "2", "3", "4"], "A", Tier.easy⟩], 0, 0,
           ⟨"ELEMENTARY", "Easy"⟩⟩ :=
  ⟨by decide, rfl⟩

/-- C4 amended: `configure_session` fails with the invalid-selection error
whenever the upper-cased grade is not one of the two fixed grade tags (the
grade comparison is case-insensitive) or the difficulty is not literally one
of the three fixed difficulty tags (that comparison is case-sensitive), and
fails with the empty-pool error when the bank holds zero questions for a
valid combination; in every failure case the error carries the state
unchanged, since both raises happen before any assignment. -/
theorem c4_amended (shuffle : List Question → List Question) (bank : Bank)
    (g : GameState) (grade_level difficulty : String) (limit : Option Int) :
    (pyUpper grade_level ∉ GRADE_LEVELS →
      configure_session shuffle bank g grade_level difficulty limit =
        .error (.invalidSelection, g)) ∧
    (difficulty ∉ DIFFICULTIES →
      configure_session shuffle bank g grade_level difficulty limit =
        .error (.invalidSelection, g)) ∧
    (pyUpper grade_level ∈ GRADE_LEVELS → difficulty ∈ DIFFICULTIES →
      bank.get (pyUpper grade_level) difficulty = [] →
      configure_session shuffle bank g grade_level difficulty limit =
        .error (.emptyPool, g)) := by
  unfold configure_session
  refine ⟨fun h => ?_, fun h => ?_, fun h1 h2 h3 => ?_⟩
  · rw [if_pos h]
  · by_cases hg : pyUpper grade_level ∉ GRADE_LEVELS
    · rw [if_pos hg]
    · rw [if_neg hg, if_pos h]
  · rw [if_neg (not_not_intro h1), if_neg (not_not_intro h2)]
    simp [h3]

/-- C4 amended, witness: the spec scenario — configuring HIGH SCHOOL/Hard on
a bank with no such entries raises the empty-pool error, with the state
carried unchanged. -/
theorem c4_amended_witness :
    configure_session id Bank.empty fresh_state "HIGH SCHOOL" "Hard" none =
      .error (.emptyPool, fresh_state) :=
  (c4_amended id Bank.empty fresh_state "HIGH SCHOOL" "Hard" none).2.2
    (by decide) (by decide) (by decide)

/-- The resolution rule exactly as the claim states it: single alphabetic
character → letter; otherwise (with no non-empty guard) the first
case-insensitive full-text match. -/
def resolve_user_letter_claim (answers : List String) (user_input : String) :
    Option String :=
  let t := pyStrip user_input
  if t.length = 1 && pyIsAlpha t then some (pyUpper t)
  else find_text_match answers t 0

/-- A current question with an empty first option text. -/
def c5_state_a : GameState :=
  ⟨[⟨"qa", ["", "3", "4", "5"], "A", Tier.easy⟩], 0, 0, ⟨"ELEMENTARY", "Easy"⟩⟩

/-- A current question whose correct option B has the same text as option A. -/
def c5_state_b : GameState :=
  ⟨[⟨"qb", ["4", "4", "5", "6"], "B", Tier.easy⟩], 0, 0, ⟨"ELEMENTARY", "Easy"⟩⟩

/-- C5 counterexample, two parts.  First: on input " " (trimmed to empty)
the claim resolution rule text-matches the empty option text of the correct
option A, predicting a correct result, but the code (which guards on a
non-empty trimmed input) answers false.  Second: "4" is exactly the full
text of the correct option B of `c5_state_b`, so the claim says it yields a
correct result, but the code answers false because the first
case-insensitive text match is option A. -/
theorem c5_counterexample :
    resolve_user_letter_claim ["", "3", "4", "5"] " " = some "A" ∧
    (check_answer c5_state_a " ").map Prod.fst = .ok false ∧
    (["4", "4", "5", "6"].getD 1 "") = "4" ∧
    (check_answer c5_state_b "4").map Prod.fst = .ok false :=
  ⟨rfl, rfl, rfl, rfl⟩

/-- C5 amended: for every current question satisfying the record invariant,
`check_answer` resolves the trimmed input as follows — if it is exactly one
alphabetic character it is taken case-insensitively as an option letter;
otherwise, if it is non-empty, it is compared case-insensitively against
each option text and the first match determines the letter; if the resolved
letter is undefined the result is incorrect.  The letter of the correct
option (any case) yields a correct result; the full text of the correct
option yields a correct result provided it is not itself a single
alphabetic character and it is the first case-insensitive text match among
the options. -/
theorem c5_amended (g : GameState) (q : Question)
    (hq : g.question_bank[g.current_index]? = some q)
    (h4 : q.answers.length = 4)
    (hc : q.correct_answer ∈ (["A", "B", "C", "D"] : List String)) :
    (∀ input : String, (pyStrip input).length = 1 → pyIsAlpha (pyStrip input) = true →
       (check_answer g input).map Prod.fst =
         .ok (pyUpper (pyStrip input) == q.correct_answer)) ∧
    (∀ input : String, pyStrip input ≠ "" →
       ¬((pyStrip input).length = 1 ∧ pyIsAlpha (pyStrip input) = true) →
       (check_answer g input).map Prod.fst =
         .ok (find_text_match q.answers (pyStrip input) 0 == some q.correct_answer)) ∧
    (∀ input : String, resolve_user_letter q.answers input = none →
       (check_answer g input).map Prod.fst = .ok false) ∧
    (∀ input : String, (pyStrip input).length = 1 → pyIsAlpha (pyStrip input) = true →
       pyUpper (pyStrip input) = q.correct_answer →
       (check_answer g input).map Prod.fst = .ok true) ∧
    (∀ input : String, pyStrip input ≠ "" →
       ¬((pyStrip input).length = 1 ∧ pyIsAlpha (pyStrip input) = true) →
       find_text_match q.answers (pyStrip input) 0 = some q.correct_answer →
       (check_answer g input).map Prod.fst = .ok true) := by
  have hkey := fun input => check_answer_eq_of_valid g q input hq h4 hc
  have hlen_ne : ∀ input : String, (pyStrip input).length = 1 → pyStrip input ≠ "" := by
    intro input hl he
    rw [he] at hl
    simp at hl
  have hres_letter : ∀ input : String, (pyStrip input).length = 1 →
      pyIsAlpha (pyStrip input) = true →
      resolve_user_letter q.answers input = some (pyUpper (pyStrip input)) := by
    intro input hl ha
    unfold resolve_user_letter
    simp [hlen_ne input hl, hl, ha]
  have hres_text : ∀ input : String, pyStrip input ≠ "" →
      ¬((pyStrip input).length = 1 ∧ pyIsAlpha (pyStrip input) = true) →
      resolve_user_letter q.answers input = find_text_match q.answers (pyStrip input) 0 := by
    intro input hne hnot
    unfold resolve_user_letter
    rw [if_pos hne]
    rcases Decidable.em ((pyStrip input).length = 1) with hl | hl
    · have ha : pyIsAlpha (pyStrip input) = false := by
        rcases Bool.eq_false_or_eq_true (pyIsAlpha (pyStrip input)) with h | h
        · exact absurd ⟨hl, h⟩ hnot
        · exact h
      simp [hl, ha]
    · simp [hl]
  refine ⟨?_, ?_, ?_, ?_, ?_⟩
  · intro input hl ha
    rw [hkey input, hres_letter input hl ha]
    by_cases heq : pyUpper (pyStrip input) = q.correct_answer
    · simp [heq, Except.map]
    · simp [heq, Except.map]
  · intro input hne hnot
    rw [hkey input, hres_text input hne hnot]
    by_cases heq : find_text_match q.answers (pyStrip input) 0 = some q.correct_answer
    · simp [heq, Except.map]
    · simp [heq, Except.map]
  · intro input hres
    rw [hkey input, hres]
    simp [Except.map]
  · intro input hl ha heq
    rw [hkey input, hres_letter input hl ha, heq]
    simp [Except.map]
  · intro input hne hnot heq
    rw [hkey input, hres_text input hne hnot, heq]
    simp [Except.map]

/-- C5 amended, witness: on the concrete one-question session, the correct
letter "b" (lower case) and the full text "4" of correct option B both
yield a correct result. -/
theorem c5_amended_witness :
    (check_answer witness_g "b").map Prod.fst = .ok true ∧
    (check_answer witness_g "4").map Prod.fst = .ok true := by
  have h := c5_amended witness_g witness_q rfl rfl (by decide)
  exact ⟨h.2.2.2.1 "b" (by decide) (by decide) (by decide),
         h.2.2.2.2 "4" (by decide) (by decide) (by decide)⟩

/-- C6: every `check_answer` call with a current question (satisfying the
record invariant) returns whether the answer was correct and advances the
cursor by exactly 1 regardless of correctness; the score increases by
exactly the current question's points when correct and is unchanged
otherwise; hence `cursor ≤ len(pool)` and `score ≥ 0` are preserved. -/
theorem c6_check_answer_effects (g : GameState) (q : Question) (input : String)
    (hq : g.question_bank[g.current_index]? = some q)
    (h4 : q.answers.length = 4)
    (hc : q.correct_answer ∈ (["A", "B", "C", "D"] : List String)) :
    (check_answer g input =
      if resolve_user_letter q.answers input = some q.correct_answer then
        .ok (true, { g with score := g.score + q.points,
                            current_index := g.current_index + 1 })
      else
        .ok (false, { g with current_index := g.current_index + 1 })) ∧
    0 < q.points ∧
    (∀ b : Bool, ∀ g' : GameState, check_answer g input = .ok (b, g') →
      g'.current_index = g.current_index + 1 ∧
      g'.question_bank = g.question_bank ∧
      g'.session_meta = g.session_meta ∧
      (b = true → g'.score = g.score + q.points) ∧
      (b = false → g'.score = g.score) ∧
      g'.current_index ≤ g'.question_bank.length ∧
      (0 ≤ g.score → 0 ≤ g'.score)) := by
  have hkey := check_answer_eq_of_valid g q input hq h4 hc
  have hlt : g.current_index < g.question_bank.length := by
    obtain ⟨h, _⟩ := List.getElem?_eq_some.mp hq
    exact h
  have hpts : 0 < q.points := by
    rw [Question.points]
    cases q.tier <;> decide
  refine ⟨hkey, hpts, ?_⟩
  intro b g' hok
  rw [hkey] at hok
  by_cases hres : resolve_user_letter q.answers input = some q.correct_answer
  · rw [if_pos hres] at hok
    simp only [Except.ok.injEq, Prod.mk.injEq] at hok
    obtain ⟨hb, hg⟩ := hok
    subst hb
    subst hg
    refine ⟨rfl, rfl, rfl, fun _ => rfl, fun h => by simp at h, ?_, ?_⟩
    · simpa using hlt
    · intro h0
      simp only []
      omega
  · rw [if_neg hres] at hok
    simp only [Except.ok.injEq, Prod.mk.injEq] at hok
    obtain ⟨hb, hg⟩ := hok
    subst hb
    subst hg
    refine ⟨rfl, rfl, rfl, fun h => by simp at h, fun _ => rfl, ?_, fun h0 => h0⟩
    simpa using hlt

/-- C6 witness: answering the concrete one-question session with "b" is
correct, advances the cursor from 0 to 1 and raises the score by the
question's point value 1. -/
theorem c6_check_answer_effects_witness :
    0 < witness_q.points ∧
    check_answer witness_g "b" =
      .ok (true, ⟨[witness_q], 1, 1, ⟨"ELEMENTARY", "Easy"⟩⟩) := by
  have h := c6_check_answer_effects witness_g witness_q "b" rfl rfl (by decide)
  refine ⟨h.2.1, ?_⟩
  rw [h.1]
  rfl

/-- C7: `check_answer` on an exhausted session (`cursor ≥ len(pool)`) fails
with the no-current-question error, raised before any mutation — the error
carries the state unchanged. -/
theorem c7_exhausted_check_answer_error (g : GameState) (input : String)
    (h : g.question_bank.length ≤ g.current_index) :
    check_answer g input = .error (.noCurrentQuestion, g) := by
  unfold check_answer
  rw [List.getElem?_eq_none h]

/-- C7 witness: answering on the fresh unconfigured state (empty pool,
cursor 0) raises the no-current-question error with the state unchanged. -/
theorem c7_exhausted_check_answer_error_witness :
    check_answer fresh_state "a" = .error (.noCurrentQuestion, fresh_state) :=
  c7_exhausted_check_answer_error fresh_state "a" (by decide)

/-- C8: `display_question` returns `none` exactly when `cursor ≥ len(pool)`
and otherwise the question at the cursor (it is a pure function of the
state, mutating nothing); consequently, for a freshly configured session
(cursor 0), after exactly `len(pool)` raise-free `check_answer` calls it
returns `none`. -/
theorem c8_display_current (g : GameState) :
    (display_question g = none ↔ g.question_bank.length ≤ g.current_index) ∧
    (∀ h : g.current_index < g.question_bank.length,
       display_question g = some (g.question_bank.get ⟨g.current_index, h⟩)) ∧
    (∀ inputs : List String, ∀ g' : GameState,
       g.current_index = 0 → inputs.length = g.question_bank.length →
       run_answers g inputs = .ok g' → display_question g' = none) := by
  refine ⟨?_, ?_, ?_⟩
  · unfold display_question
    by_cases h : g.question_bank.length ≤ g.current_index
    · simp [h]
    · simp only [h, if_false, iff_false]
      push_neg at h
      intro hnone
      rw [List.getElem?_eq_none_iff] at hnone
      omega
  · intro h
    unfold display_question
    rw [if_neg (by omega), List.getElem?_eq_getElem h]
    rfl
  · intro inputs g' h0 hlen hrun
    obtain ⟨hb, hi⟩ := run_answers_ok hrun
    unfold display_question
    rw [if_pos]
    rw [hb, hi, h0, hlen]
    omega

/-- C8 witness: after the single question of the concrete session is
answered, `display_question` returns the exhausted signal. -/
theorem c8_display_current_witness :
    display_question
      (⟨[witness_q], 1, 1, ⟨"ELEMENTARY", "Easy"⟩⟩ : GameState) = none :=
  (c8_display_current witness_g).2.2 ["b"]
    ⟨[witness_q], 1, 1, ⟨"ELEMENTARY", "Easy"⟩⟩ rfl rfl rfl

/-- C9: `shuffle_question_bank` re-shuffles the entire pool — afterwards the
pool is a permutation of the previous full pool, including already-answered
questions — and resets the cursor to 0, while score and meta are unchanged
(for any shuffling function that permutes its input, as `random.shuffle`
does). -/
theorem c9_shuffle_entire_pool (shuffle : List Question → List Question)
    (hperm : ∀ l : List Question, (shuffle l).Perm l) (g : GameState) :
    ((shuffle_question_bank shuffle g).question_bank).Perm g.question_bank ∧
    (shuffle_question_bank shuffle g).current_index = 0 ∧
    (shuffle_question_bank shuffle g).score = g.score ∧
    (shuffle_question_bank shuffle g).session_meta = g.session_meta :=
  ⟨hperm g.question_bank, rfl, rfl, rfl⟩

/-- A mid-session state: one question already answered (cursor 1, score 3). -/
def c9_g : GameState := ⟨[witness_q], 3, 1, ⟨"ELEMENTARY", "Easy"⟩⟩

/-- C9 witness: instantiated with the identity permutation on a mid-session
state — the pool stays a permutation of the full pool, the cursor returns
to 0 (re-exposing the answered question), score and meta unchanged. -/
theorem c9_shuffle_entire_pool_witness :
    ((shuffle_question_bank id c9_g).question_bank).Perm c9_g.question_bank ∧
    (shuffle_question_bank id c9_g).current_index = 0 ∧
    (shuffle_question_bank id c9_g).score = c9_g.score ∧
    (shuffle_question_bank id c9_g).session_meta = c9_g.session_meta :=
  c9_shuffle_entire_pool id (fun l => List.Perm.refl l) c9_g

/-- A current question with 4 options whose correct letter is "@" (not one
of A–D). -/
def c10_state_at : GameState :=
  ⟨[⟨"q", ["1", "2", "3", "4"], "@", Tier.easy⟩], 0, 0, ⟨"", ""⟩⟩

/-- A current question with 4 options whose correct letter is "E". -/
def c10_state_e : GameState :=
  ⟨[⟨"q", ["1", "2", "3", "4"], "E", Tier.easy⟩], 0, 0, ⟨"", ""⟩⟩

/-- C10 counterexample to the necessity part ("out of range for any other
correct_option value"): with correct letter "@" — not in {A,B,C,D} — a wrong
answer does not raise, because `ord("@") - 65 = -1` is a valid Python index
(the last option); and with correct letter "E", an input resolving to "E"
is scored correct without ever reaching the indexing, so it does not raise
either. -/
theorem c10_counterexample :
    "@" ∉ (["A", "B", "C", "D"] : List String) ∧
    check_answer c10_state_at "z" =
      .ok (false, ⟨[⟨"q", ["1", "2", "3", "4"], "@", Tier.easy⟩], 0, 1, ⟨"", ""⟩⟩) ∧
    "E" ∉ (["A", "B", "C", "D"] : List String) ∧
    check_answer c10_state_e "e" =
      .ok (true, ⟨[⟨"q", ["1", "2", "3", "4"], "E", Tier.easy⟩], 1, 1, ⟨"", ""⟩⟩) :=
  ⟨by decide, rfl, by decide, rfl⟩

/-- C10 amended: for every session with a current question whose record
satisfies the invariant — correct letter in {A,B,C,D} and exactly 4
options — `check_answer` never raises and returns a boolean outcome.  The
precondition matters because the incorrect-answer branch indexes the
options at `ord(correct) - 65`, which can be out of range for other correct
letters: with correct letter "E" (index 4) any input that does not resolve
to "E" raises the IndexError — though not every other value faults, since
code points 61–64 wrap to valid negative indices and a correctly resolved
answer skips the indexing. -/
theorem c10_amended (g : GameState) (q : Question) (input : String)
    (hq : g.question_bank[g.current_index]? = some q)
    (h4 : q.answers.length = 4)
    (hc : q.correct_answer ∈ (["A", "B", "C", "D"] : List String)) :
    (check_answer g input =
      if resolve_user_letter q.answers input = some q.correct_answer then
        .ok (true, { g with score := g.score + q.points,
                            current_index := g.current_index + 1 })
      else
        .ok (false, { g with current_index := g.current_index + 1 })) ∧
    (∀ g2 : GameState, ∀ q2 : Question, ∀ input2 : String,
       g2.question_bank[g2.current_index]? = some q2 →
       q2.answers.length = 4 →
       pyUpper q2.correct_answer = "E" →
       resolve_user_letter q2.answers input2 ≠ some "E" →
       check_answer g2 input2 = .error (.indexError, g2)) := by
  refine ⟨check_answer_eq_of_valid g q input hq h4 hc, ?_⟩
  intro g2 q2 input2 hq2 h42 hup2 hres2
  obtain ⟨a, b, c, d, habcd⟩ := exists_four q2.answers h42
  unfold check_answer
  rw [hq2]
  simp only [hup2]
  have hbeq : (resolve_user_letter q2.answers input2 == some "E") = false := by
    simp [hres2]
  simp only [hbeq, Bool.false_eq_true, if_false]
  have hord : pyOrd "E" = some 69 := by decide
  rw [hord, habcd]
  norm_num [pyIndex]
  rfl

/-- C10 amended, witness: a valid record never raises (concrete wrong
answer "z" returns `false` and advances), and the concrete "E" record with
a non-matching answer raises the IndexError with the state unchanged. -/
theorem c10_amended_witness :
    check_answer witness_g "z" =
      .ok (false, ⟨[witness_q], 0, 1, ⟨"ELEMENTARY", "Easy"⟩⟩) ∧
    check_answer c10_state_e "z" = .error (.indexError, c10_state_e) := by
  have h := c10_amended witness_g witness_q "z" rfl rfl (by decide)
  refine ⟨?_, h.2 c10_state_e ⟨"q", ["1", "2", "3", "4"], "E", Tier.easy⟩ "z"
    rfl rfl (by decide) (by decide)⟩
  rw [h.1]
  rfl
